import Mathlib

/-!
Verification of the SDFormat typed data model and codec.

The data model (`Sdf`, `SdfType`, `Model`, `Include`, `Plugin`, `Frame`,
`NestedModel`, `Link`, `Joint`, `Gripper`, `GraspCheck`, `World`) is embedded
from `src/sdformat/src/lib.rs`.  The repository only declares the schema via
serde derive attributes; the decode/encode functions themselves come from the
external serde machinery, so the codec here is modelled from the spec
(§3, §4.1–4.3, §7) over a generic element/attribute tree, faithful to the
per-field serde attributes declared in the source (required fields, the
`default`, `default = "some_true_default"`, `default = "some_false_default"`,
and `default = "Sdf::default_version"` policies, and the field types).
-/

/-- Embedded from the source: `pub type Pose = String;` (line 57). -/
abbrev Pose := String

/-- Embedded from the source: `pub struct World {}` (line 40). -/
structure World where
deriving DecidableEq

/-- Embedded from the source: `pub struct Plugin` (lines 120–126):
`name: String`, `filename: String`, both required. -/
structure Plugin where
  name : String
  filename : String
deriving DecidableEq

/-- Embedded from the source: `pub struct Frame` (lines 131–137). -/
structure Frame where
  name : String
  attached_to : Option String
  pose : Option Pose
deriving DecidableEq

/-- Embedded from the source: `pub struct NestedModel` (lines 142–145). -/
structure NestedModel where
  name : String
deriving DecidableEq

/-- Embedded from the source: `pub struct Link` (lines 151–154). -/
structure Link where
  name : String
deriving DecidableEq

/-- Embedded from the source: `pub struct Joint {}` (lines 159–161), an empty
placeholder. -/
structure Joint where
deriving DecidableEq

/-- Embedded from the source: `pub struct GraspCheck` (lines 174–184):
`detach_step: Option<i64>`, `attach_step: Option<i64>`,
`min_contact_count: Option<u64>`.  Machine integers are modelled as
`Int`/`Nat` with explicit range checks at the decode boundary. -/
structure GraspCheck where
  detach_step : Option Int
  attach_step : Option Int
  min_contact_count : Option Nat
deriving DecidableEq

/-- Embedded from the source: `pub struct Gripper` (lines 165–170). -/
structure Gripper where
  name : String
  grasp_check : Option GraspCheck
  gripper_link : Option String
  palm_link : Option String
deriving DecidableEq

/-- Embedded from the source: `pub struct Include` (lines 104–115):
`uri` required, four optional overrides, and a `Vec<Plugin>`. -/
structure Include where
  uri : String
  name : Option String
  static : Option Bool
  placement_frame : Option String
  pose : Option Pose
  plugin : List Plugin
deriving DecidableEq

/-- Embedded from the source: `pub struct Model` (lines 62–99).  `name` is
required; `static`, `self_collide`, `canonical_link`, `placement_frame`,
`pose` default to absent; `allow_auto_disable` defaults to `Some(true)` and
`enable_wind` to `Some(false)`; the `Vec` fields default to empty. -/
structure Model where
  name : String
  canonical_link : Option String
  placement_frame : Option String
  static : Option Bool
  self_collide : Option Bool
  allow_auto_disable : Option Bool
  «include» : List Include
  model : List NestedModel
  enable_wind : Option Bool
  frame : List Frame
  pose : Option Pose
  link : List Link
  joint : List Joint
  plugin : List Plugin
  gripper : List Gripper
deriving DecidableEq

/-- Embedded from the source: `pub enum SdfType` (lines 30–35): the tagged
union over World/Model/Actor/Light.  `Actor` and `Light` carry no payload in
the source. -/
inductive SdfType where
  | world (w : World)
  | model (m : Model)
  | actor
  | light
deriving DecidableEq

/-- Embedded from the source: `pub struct Sdf` (lines 8–18): the document
root, with `version` defaulting to `"1.8"` (lines 20–26) and the tagged-union
content. -/
structure Sdf where
  version : String
  sdf_type : SdfType
deriving DecidableEq

/-! ## The element/attribute tree

Modelled from the spec (§4.2): decode operates on a generic element/attribute
tree produced by an external standards-conformant parser; parsing raw text
into this tree is an external collaborator and is not modelled. -/

/-- A node of the generic element/attribute tree: an element with a name, an
ordered attribute list and ordered children, or a text node. -/
inductive Xml where
  | elem (name : String) (attrs : List (String × String)) (children : List Xml)
  | text (s : String)

/-- Decode errors, following the spec's error taxonomy (§7): a missing
required field, a field text that cannot be converted to its declared type,
or a root/tagged-union shape mismatch. -/
inductive DecodeError where
  | missingField (field : String)
  | typeMismatch (field : String)
  | schemaMismatch (what : String)
deriving DecidableEq

/-- Encode errors.  Modelled from the spec (§7): encode failure "only arises
from I/O-adjacent faults in the underlying serializer". -/
inductive EncodeError where
  | ioFault
deriving DecidableEq

/-- First attribute value with the given key, in document order. -/
def lookupAttr (k : String) (attrs : List (String × String)) : Option String :=
  (attrs.find? fun q => q.1 == k).map Prod.snd

/-- All child elements with the given name, in document order, as
(attributes, children) pairs. -/
def elemsNamed (n : String) (cs : List Xml) : List (List (String × String) × List Xml) :=
  cs.filterMap fun c =>
    match c with
    | .elem m a k => if m == n then some (a, k) else none
    | .text _ => none

/-- Concatenated direct text content of a children list. -/
def childText : List Xml → String
  | [] => ""
  | .text s :: rest => s ++ childText rest
  | .elem _ _ _ :: rest => childText rest

/-- Text of the first child element with the given name, if any. -/
def childStr (n : String) (cs : List Xml) : Option String :=
  (elemsNamed n cs).head?.map fun e => childText e.2

/-- Fail-fast map over a list, as a serde sequence visitor does: the first
element error aborts the whole decode. -/
def mapExcept (f : α → Except ε β) : List α → Except ε (List β)
  | [] => .ok []
  | a :: l => do
    let b ← f a
    let r ← mapExcept f l
    return b :: r

/-! ## Scalar field decoders (modelled from the spec §4.1/§7) -/

/-- Modelled from the spec: a required attribute; absence is a decode error
(§7 "a required field is missing"). -/
def reqAttr (k : String) (attrs : List (String × String)) : Except DecodeError String :=
  match lookupAttr k attrs with
  | some v => .ok v
  | none => .error (.missingField k)

/-- Modelled from the spec: a required child-element text field. -/
def reqChildStr (n : String) (cs : List Xml) : Except DecodeError String :=
  match childStr n cs with
  | some v => .ok v
  | none => .error (.missingField n)

/-- Modelled from the spec: boolean text conversion; non-boolean text is a
type-mismatch decode error (§7). -/
def decodeBoolText (field s : String) : Except DecodeError Bool :=
  if s == "true" then .ok true
  else if s == "false" then .ok false
  else .error (.typeMismatch field)

/-- Modelled from the spec: an optional boolean child with no default
(policy 1 of §4.1): absent in input means absent in the model. -/
def childBool (n : String) (cs : List Xml) : Except DecodeError (Option Bool) :=
  match childStr n cs with
  | none => .ok none
  | some s => (decodeBoolText n s).map some

/-- Modelled from the spec: a defaulted-present boolean child (policy 2 of
§4.1): absent in input means the fixed default is materialized; decode never
leaves these fields absent. -/
def childBoolD (dflt : Bool) (n : String) (cs : List Xml) : Except DecodeError (Option Bool) :=
  match childStr n cs with
  | none => .ok (some dflt)
  | some s => (decodeBoolText n s).map some

/-- Decimal digit value of a character, if it is a digit. -/
def digitVal? (c : Char) : Option Nat :=
  if '0' ≤ c ∧ c ≤ '9' then some (c.toNat - '0'.toNat) else none

/-- Left-to-right accumulation of decimal digits, the model of Rust's
unsigned integer `FromStr`; any non-digit character fails. -/
def parseNatCore : List Char → Nat → Option Nat
  | [], acc => some acc
  | c :: cs, acc =>
    match digitVal? c with
    | some d => parseNatCore cs (acc * 10 + d)
    | none => none

/-- Parse an unsigned decimal numeral; the empty string fails. -/
def parseNat (s : String) : Option Nat :=
  match s.data with
  | [] => none
  | cs => parseNatCore cs 0

/-- Parse a signed decimal numeral (optional leading minus sign), the model
of Rust's signed integer `FromStr`. -/
def parseInt (s : String) : Option Int :=
  match s.data with
  | [] => none
  | c :: cs =>
    if c = '-' then
      if cs = [] then none
      else (parseNatCore cs 0).map fun n => -Int.ofNat n
    else (parseNatCore (c :: cs) 0).map Int.ofNat

/-- Modelled from the spec: `u64` text conversion with its range check. -/
def decodeU64Text (n s : String) : Except DecodeError Nat :=
  match parseNat s with
  | some v => if v < 2 ^ 64 then .ok v else .error (.typeMismatch n)
  | none => .error (.typeMismatch n)

/-- Modelled from the spec: `i64` text conversion with its range check. -/
def decodeI64Text (n s : String) : Except DecodeError Int :=
  match parseInt s with
  | some v =>
    if -(2 ^ 63) ≤ v ∧ v < 2 ^ 63 then .ok v else .error (.typeMismatch n)
  | none => .error (.typeMismatch n)

/-- Modelled from the spec: an optional `u64` child field; out-of-range or
non-numeric text is a type-mismatch decode error. -/
def childU64 (n : String) (cs : List Xml) : Except DecodeError (Option Nat) :=
  match childStr n cs with
  | none => .ok none
  | some s => (decodeU64Text n s).map some

/-- Modelled from the spec: an optional `i64` child field; out-of-range or
non-numeric text is a type-mismatch decode error. -/
def childI64 (n : String) (cs : List Xml) : Except DecodeError (Option Int) :=
  match childStr n cs with
  | none => .ok none
  | some s => (decodeI64Text n s).map some

/-! ## Entity decoders

Modelled from the spec (§4.2): each entity maps declared attributes and child
elements to fields by name, applying the three defaulting policies of §4.1,
recursing into collections in document order, failing fast. -/

/-- Modelled from the spec: decode a `plugin` element; `name` and `filename`
are required. -/
def decodePlugin (attrs : List (String × String)) (_cs : List Xml) :
    Except DecodeError Plugin := do
  let name ← reqAttr "name" attrs
  let filename ← reqAttr "filename" attrs
  return { name, filename }

/-- Modelled from the spec: decode a `frame` element. -/
def decodeFrame (attrs : List (String × String)) (cs : List Xml) :
    Except DecodeError Frame := do
  let name ← reqAttr "name" attrs
  return { name, attached_to := lookupAttr "attached_to" attrs, pose := childStr "pose" cs }

/-- Modelled from the spec: decode a nested `model` element. -/
def decodeNestedModel (attrs : List (String × String)) (_cs : List Xml) :
    Except DecodeError NestedModel := do
  let name ← reqAttr "name" attrs
  return { name }

/-- Modelled from the spec: decode a `link` element. -/
def decodeLink (attrs : List (String × String)) (_cs : List Xml) :
    Except DecodeError Link := do
  let name ← reqAttr "name" attrs
  return { name }

/-- Modelled from the spec: decode a `joint` element (empty placeholder). -/
def decodeJoint (_attrs : List (String × String)) (_cs : List Xml) :
    Except DecodeError Joint :=
  .ok {}

/-- Modelled from the spec: decode a `world` element (empty placeholder). -/
def decodeWorld (_attrs : List (String × String)) (_cs : List Xml) :
    Except DecodeError World :=
  .ok {}

/-- Modelled from the spec: decode a `grasp_check` element; the three numeric
children are optional with no default materialized (the documented defaults
40/20/2 are not wired in, per the source's TODO comments). -/
def decodeGraspCheck (_attrs : List (String × String)) (cs : List Xml) :
    Except DecodeError GraspCheck := do
  let detach_step ← childI64 "detach_step" cs
  let attach_step ← childI64 "attach_step" cs
  let min_contact_count ← childU64 "min_contact_count" cs
  return { detach_step, attach_step, min_contact_count }

/-- Modelled from the spec: an optional structured `grasp_check` child. -/
def childGraspCheck (cs : List Xml) : Except DecodeError (Option GraspCheck) :=
  match (elemsNamed "grasp_check" cs).head? with
  | none => .ok none
  | some e => (decodeGraspCheck e.1 e.2).map some

/-- Modelled from the spec: decode a `gripper` element. -/
def decodeGripper (attrs : List (String × String)) (cs : List Xml) :
    Except DecodeError Gripper := do
  let name ← reqAttr "name" attrs
  let grasp_check ← childGraspCheck cs
  return { name, grasp_check, gripper_link := childStr "gripper_link" cs,
           palm_link := childStr "palm_link" cs }

/-- Modelled from the spec: decode an `include` element; `uri` is required,
the overrides are optional without defaults, the plugins are a collection. -/
def decodeInclude (_attrs : List (String × String)) (cs : List Xml) :
    Except DecodeError Include := do
  let uri ← reqChildStr "uri" cs
  let static ← childBool "static" cs
  let plugin ← mapExcept (fun e => decodePlugin e.1 e.2) (elemsNamed "plugin" cs)
  return { uri, name := childStr "name" cs, static,
           placement_frame := childStr "placement_frame" cs,
           pose := childStr "pose" cs, plugin }

/-- Modelled from the spec: decode a `model` element, applying the three
defaulting policies of §4.1 exactly as declared per field in the source. -/
def decodeModel (attrs : List (String × String)) (cs : List Xml) :
    Except DecodeError Model := do
  let name ← reqAttr "name" attrs
  let static ← childBool "static" cs
  let self_collide ← childBool "self_collide" cs
  let allow_auto_disable ← childBoolD true "allow_auto_disable" cs
  let enable_wind ← childBoolD false "enable_wind" cs
  let includes ← mapExcept (fun e => decodeInclude e.1 e.2) (elemsNamed "include" cs)
  let models ← mapExcept (fun e => decodeNestedModel e.1 e.2) (elemsNamed "model" cs)
  let frames ← mapExcept (fun e => decodeFrame e.1 e.2) (elemsNamed "frame" cs)
  let links ← mapExcept (fun e => decodeLink e.1 e.2) (elemsNamed "link" cs)
  let joints ← mapExcept (fun e => decodeJoint e.1 e.2) (elemsNamed "joint" cs)
  let plugins ← mapExcept (fun e => decodePlugin e.1 e.2) (elemsNamed "plugin" cs)
  let grippers ← mapExcept (fun e => decodeGripper e.1 e.2) (elemsNamed "gripper" cs)
  return { name, canonical_link := lookupAttr "canonical_link" attrs,
           placement_frame := lookupAttr "placement_frame" attrs,
           static, self_collide, allow_auto_disable,
           «include» := includes, model := models, enable_wind,
           frame := frames, pose := childStr "pose" cs,
           link := links, joint := joints, plugin := plugins, gripper := grippers }

/-- The root's child elements whose names map to the World/Model/Actor/Light
tagged union. -/
def recognizedRootChildren (cs : List Xml) :
    List (String × List (String × String) × List Xml) :=
  cs.filterMap fun c =>
    match c with
    | .elem n a k =>
      if n == "world" || n == "model" || n == "actor" || n == "light" then
        some (n, a, k)
      else none
    | .text _ => none

/-- Modelled from the spec (§4.2): the tagged-union variant is chosen by the
root's single recognized child element; zero or multiple recognized children
is a schema mismatch. -/
def decodeSdfType (cs : List Xml) : Except DecodeError SdfType :=
  match recognizedRootChildren cs with
  | [] => .error (.schemaMismatch "sdf_type")
  | [(n, a, k)] =>
    if n == "world" then (decodeWorld a k).map SdfType.world
    else if n == "model" then (decodeModel a k).map SdfType.model
    else if n == "actor" then .ok SdfType.actor
    else .ok SdfType.light
  | _ :: _ :: _ => .error (.schemaMismatch "sdf_type")

/-- Modelled from the spec (§4.2, §6): the decode entrypoint over the parsed
element tree.  The root must be an `sdf` element; `version` is a
defaulted-present attribute (default `"1.8"`, per `Sdf::default_version`). -/
def decode : Xml → Except DecodeError Sdf
  | .text _ => .error (.schemaMismatch "sdf")
  | .elem n attrs cs =>
    if n == "sdf" then
      (decodeSdfType cs).map fun t =>
        { version := (lookupAttr "version" attrs).getD "1.8", sdf_type := t }
    else .error (.schemaMismatch "sdf")

/-! ## Encoders

Modelled from the spec (§4.3): encode emits every present field under its
schema name, defaulted-present fields always (the model never distinguishes
"default" from "explicitly set to the default"), collections in order. -/

/-- Boolean text emission. -/
def encodeBool (b : Bool) : String := if b then "true" else "false"

/-- A child element holding only text. -/
def textElem (n s : String) : Xml := .elem n [] [.text s]

/-- An optional text child: omitted when the field is absent. -/
def optChild (n : String) : Option String → List Xml
  | none => []
  | some s => [textElem n s]

/-- An optional boolean child. -/
def optBoolChild (n : String) (o : Option Bool) : List Xml :=
  optChild n (o.map encodeBool)

/-- An optional attribute: omitted when the field is absent. -/
def optAttr (k : String) : Option String → List (String × String)
  | none => []
  | some v => [(k, v)]

/-- Decimal digit characters, avoiding character arithmetic. -/
def digitChar : Nat → Char
  | 0 => '0'
  | 1 => '1'
  | 2 => '2'
  | 3 => '3'
  | 4 => '4'
  | 5 => '5'
  | 6 => '6'
  | 7 => '7'
  | 8 => '8'
  | _ => '9'

/-- Decimal digits with explicit fuel (any fuel above the number suffices);
most significant digit first. -/
def natDigitsAux : Nat → Nat → List Char
  | 0, _ => []
  | fuel + 1, n =>
    if n < 10 then [digitChar n]
    else natDigitsAux fuel (n / 10) ++ [digitChar (n % 10)]

/-- Decimal digits of a number, most significant first; the model of Rust's
unsigned integer `Display`. -/
def natDigits (n : Nat) : List Char := natDigitsAux (n + 1) n

/-- Print an unsigned decimal numeral. -/
def printNat (n : Nat) : String := String.mk (natDigits n)

/-- Print a signed decimal numeral, the model of Rust's signed integer
`Display`. -/
def printInt (i : Int) : String :=
  if i < 0 then String.mk ('-' :: natDigits i.natAbs) else printNat i.natAbs

/-- Attributes emitted for a `plugin` element. -/
def pluginAttrs (p : Plugin) : List (String × String) :=
  [("name", p.name), ("filename", p.filename)]

/-- Modelled from the spec: encode a `plugin` element. -/
def encodePlugin (p : Plugin) : Xml :=
  .elem "plugin" (pluginAttrs p) []

/-- Attributes emitted for a `frame` element. -/
def frameAttrs (f : Frame) : List (String × String) :=
  [("name", f.name)] ++ optAttr "attached_to" f.attached_to

/-- Children emitted for a `frame` element. -/
def frameChildren (f : Frame) : List Xml :=
  optChild "pose" f.pose

/-- Modelled from the spec: encode a `frame` element. -/
def encodeFrame (f : Frame) : Xml :=
  .elem "frame" (frameAttrs f) (frameChildren f)

/-- Modelled from the spec: encode a nested `model` element. -/
def encodeNestedModel (m : NestedModel) : Xml :=
  .elem "model" [("name", m.name)] []

/-- Modelled from the spec: encode a `link` element. -/
def encodeLink (l : Link) : Xml :=
  .elem "link" [("name", l.name)] []

/-- Modelled from the spec: encode a `joint` element. -/
def encodeJoint (_j : Joint) : Xml :=
  .elem "joint" [] []

/-- Children emitted for a `grasp_check` element. -/
def graspCheckChildren (g : GraspCheck) : List Xml :=
  optChild "detach_step" (g.detach_step.map printInt) ++
  optChild "attach_step" (g.attach_step.map printInt) ++
  optChild "min_contact_count" (g.min_contact_count.map printNat)

/-- Modelled from the spec: encode a `grasp_check` element. -/
def encodeGraspCheck (g : GraspCheck) : Xml :=
  .elem "grasp_check" [] (graspCheckChildren g)

/-- An optional structured child element. -/
def optElem (f : α → Xml) : Option α → List Xml
  | none => []
  | some x => [f x]

/-- Children emitted for a `gripper` element. -/
def gripperChildren (g : Gripper) : List Xml :=
  optElem encodeGraspCheck g.grasp_check ++
  optChild "gripper_link" g.gripper_link ++
  optChild "palm_link" g.palm_link

/-- Modelled from the spec: encode a `gripper` element. -/
def encodeGripper (g : Gripper) : Xml :=
  .elem "gripper" [("name", g.name)] (gripperChildren g)

/-- Children emitted for an `include` element. -/
def includeChildren (i : Include) : List Xml :=
  [textElem "uri" i.uri] ++
  optChild "name" i.name ++
  optBoolChild "static" i.static ++
  optChild "placement_frame" i.placement_frame ++
  optChild "pose" i.pose ++
  i.plugin.map encodePlugin

/-- Modelled from the spec: encode an `include` element. -/
def encodeInclude (i : Include) : Xml :=
  .elem "include" [] (includeChildren i)

/-- Attributes emitted for a `model` element. -/
def modelAttrs (m : Model) : List (String × String) :=
  [("name", m.name)] ++ optAttr "canonical_link" m.canonical_link ++
  optAttr "placement_frame" m.placement_frame

/-- Children emitted for a `model` element; collections are emitted in
document order. -/
def modelChildren (m : Model) : List Xml :=
  optBoolChild "static" m.static ++
  optBoolChild "self_collide" m.self_collide ++
  optBoolChild "allow_auto_disable" m.allow_auto_disable ++
  optBoolChild "enable_wind" m.enable_wind ++
  m.«include».map encodeInclude ++
  m.model.map encodeNestedModel ++
  m.frame.map encodeFrame ++
  optChild "pose" m.pose ++
  m.link.map encodeLink ++
  m.joint.map encodeJoint ++
  m.plugin.map encodePlugin ++
  m.gripper.map encodeGripper

/-- Modelled from the spec: encode a `model` element. -/
def encodeModel (m : Model) : Xml :=
  .elem "model" (modelAttrs m) (modelChildren m)

/-- Modelled from the spec: encode the tagged-union content as the single
root child element. -/
def encodeSdfType : SdfType → Xml
  | .world _ => .elem "world" [] []
  | .model m => encodeModel m
  | .actor => .elem "actor" [] []
  | .light => .elem "light" [] []

/-- Modelled from the spec (§4.3, §6): the encode entrypoint; `version` is
always emitted. -/
def encode (d : Sdf) : Xml :=
  .elem "sdf" [("version", d.version)] [encodeSdfType d.sdf_type]

/-- Modelled from the spec (§7): the fallible encode entrypoint.  Encode
failure can only arise from I/O-adjacent faults in the underlying serializer;
over in-memory values no such fault exists, so encoding always succeeds. -/
def encodeResult (d : Sdf) : Except EncodeError Xml :=
  .ok (encode d)

/-! ## Well-formedness

`Wf` characterizes the decoded image: decode always materializes the
defaulted-present fields, and numeric fields lie in their machine ranges. -/

/-- Range well-formedness of a decoded `GraspCheck`: `i64` and `u64` bounds. -/
def GraspCheck.Wf (g : GraspCheck) : Prop :=
  (∀ v ∈ g.detach_step, -(2 ^ 63) ≤ v ∧ v < 2 ^ 63) ∧
  (∀ v ∈ g.attach_step, -(2 ^ 63) ≤ v ∧ v < 2 ^ 63) ∧
  (∀ v ∈ g.min_contact_count, v < 2 ^ 64)

/-- Well-formedness of a decoded `Gripper`. -/
def Gripper.Wf (g : Gripper) : Prop := ∀ gc ∈ g.grasp_check, gc.Wf

/-- Well-formedness of a decoded `Model`: the defaulted-present fields are
populated and grippers are well-formed. -/
def Model.Wf (m : Model) : Prop :=
  m.allow_auto_disable.isSome = true ∧ m.enable_wind.isSome = true ∧
  ∀ g ∈ m.gripper, g.Wf

/-- Well-formedness of decoded tagged-union content. -/
def SdfType.Wf : SdfType → Prop
  | .model m => m.Wf
  | _ => True

/-- Well-formedness of a decoded document. -/
def Sdf.Wf (d : Sdf) : Prop := d.sdf_type.Wf

/-! ## Concrete sample values used in the claim theorems -/

/-- The document decoded from `<sdf version="1.5"><model name="m"/></sdf>`. -/
def rtDoc : Sdf :=
  { version := "1.5",
    sdf_type := .model
      { name := "m", canonical_link := none, placement_frame := none,
        static := none, self_collide := none, allow_auto_disable := some true,
        «include» := [], model := [], enable_wind := some false, frame := [],
        pose := none, link := [], joint := [], plugin := [], gripper := [] } }

/-- The document of the spec's concrete box scenario (§8). -/
def boxDoc : Sdf :=
  { version := "1.8",
    sdf_type := .model
      { name := "box", canonical_link := none, placement_frame := none,
        static := some false, self_collide := some true,
        allow_auto_disable := some true, «include» := [], model := [],
        enable_wind := some false, frame := [], pose := some "0 0 0.5 0 0 0",
        link := [], joint := [], plugin := [], gripper := [] } }

/-- The model decoded from a model element with plugins p1 then p2. -/
def orderModel : Model :=
  { name := "m", canonical_link := none, placement_frame := none,
    static := none, self_collide := none, allow_auto_disable := some true,
    «include» := [], model := [], enable_wind := some false, frame := [],
    pose := none, link := [], joint := [],
    plugin := [{ name := "p1", filename := "f1" },
               { name := "p2", filename := "f2" }],
    gripper := [] }

/-- The model decoded from a model element with no children. -/
def emptyBoxModel : Model :=
  { name := "box", canonical_link := none, placement_frame := none,
    static := none, self_collide := none, allow_auto_disable := some true,
    «include» := [], model := [], enable_wind := some false, frame := [],
    pose := none, link := [], joint := [], plugin := [], gripper := [] }

/-- The include decoded from an include element holding only a uri. -/
def uriOnlyInclude : Include :=
  { uri := "u", name := none, static := none, placement_frame := none,
    pose := none, plugin := [] }

/-! ## Generic lemmas about `Except` and `mapExcept` -/

@[simp] theorem except_ok_bind {ε α β : Type} (a : α) (f : α → Except ε β) :
    (Except.ok a : Except ε α) >>= f = f a := rfl

@[simp] theorem except_error_bind {ε α β : Type} (e : ε) (f : α → Except ε β) :
    (Except.error e : Except ε α) >>= f = .error e := rfl

@[simp] theorem except_map_of_ok {ε α β : Type} (g : α → β) (a : α) :
    Except.map g (Except.ok a : Except ε α) = .ok (g a) := rfl

@[simp] theorem except_map_of_error {ε α β : Type} (g : α → β) (e : ε) :
    Except.map g (Except.error e : Except ε α) = .error e := rfl

theorem except_bind_ok {ε α β : Type} {x : Except ε α} {f : α → Except ε β} {b : β} :
    x >>= f = .ok b ↔ ∃ a, x = .ok a ∧ f a = .ok b := by
  cases x <;> simp [Bind.bind, Except.bind]

theorem except_map_ok {ε α β : Type} {x : Except ε α} {g : α → β} {b : β} :
    Except.map g x = .ok b ↔ ∃ a, x = .ok a ∧ g a = b := by
  cases x <;> simp [Except.map]

@[simp] theorem except_pure_eq_ok {ε α : Type} (a : α) :
    (pure a : Except ε α) = .ok a := rfl

theorem except_pure_ok {ε α : Type} {a b : α} :
    (pure a : Except ε α) = .ok b ↔ a = b := by
  simp [pure, Except.pure]

@[simp] theorem mapExcept_nil {ε α β : Type} (f : α → Except ε β) :
    mapExcept f [] = .ok [] := rfl

@[simp] theorem mapExcept_cons {ε α β : Type} (f : α → Except ε β) (a : α) (l : List α) :
    mapExcept f (a :: l) =
      f a >>= fun b => mapExcept f l >>= fun r => pure (b :: r) := rfl

theorem mapExcept_roundtrip {ε α β : Type} (f : β → Except ε α) (g : α → β)
    (l : List α) (h : ∀ x ∈ l, f (g x) = .ok x) :
    mapExcept f (l.map g) = .ok l := by
  induction l with
  | nil => rfl
  | cons x t ih =>
    have hx := h x (by simp)
    have ht := ih fun y hy => h y (by simp [hy])
    simp [hx, ht]

theorem mapExcept_ok_forall {ε α β : Type} {f : α → Except ε β} {P : β → Prop}
    (hf : ∀ a b, f a = .ok b → P b) :
    ∀ l r, mapExcept f l = .ok r → ∀ b ∈ r, P b := by
  intro l
  induction l with
  | nil =>
    intro r hr b hb
    rw [mapExcept_nil] at hr
    injection hr with hr
    subst hr
    simp at hb
  | cons a t ih =>
    intro r hr b hb
    rw [mapExcept_cons, except_bind_ok] at hr
    obtain ⟨b0, hb0, hr⟩ := hr
    rw [except_bind_ok] at hr
    obtain ⟨r0, hr0, hr⟩ := hr
    rw [except_pure_ok] at hr
    subst hr
    rcases List.mem_cons.mp hb with rfl | hb'
    · exact hf a b hb0
    · exact ih r0 hr0 b hb'

/-! ## Numeral print/parse round-trip -/

theorem parseNatCore_append (ds es : List Char) (acc : Nat) :
    parseNatCore (ds ++ es) acc =
      match parseNatCore ds acc with
      | some m => parseNatCore es m
      | none => none := by
  induction ds generalizing acc with
  | nil => simp [parseNatCore]
  | cons c cs ih =>
    simp only [List.cons_append, parseNatCore]
    cases h : digitVal? c with
    | none => rfl
    | some d => exact ih _

theorem digitVal?_digitChar {d : Nat} (h : d < 10) :
    digitVal? (digitChar d) = some d := by
  interval_cases d <;> rfl

theorem natDigitsAux_ne_nil {fuel n : Nat} (h : n < fuel) :
    natDigitsAux fuel n ≠ [] := by
  cases fuel with
  | zero => omega
  | succ fuel =>
    by_cases h10 : n < 10 <;> simp [natDigitsAux, h10]

theorem natDigitsAux_all_digits {fuel n : Nat} :
    ∀ c ∈ natDigitsAux fuel n, ∃ d, d < 10 ∧ c = digitChar d := by
  induction fuel generalizing n with
  | zero => simp [natDigitsAux]
  | succ fuel ih =>
    intro c hc
    by_cases h10 : n < 10
    · simp [natDigitsAux, h10] at hc
      exact ⟨n, h10, hc⟩
    · simp only [natDigitsAux, if_neg h10, List.mem_append] at hc
      rcases hc with hc | hc
      · exact ih c hc
      · simp at hc
        exact ⟨n % 10, Nat.mod_lt _ (by omega), hc⟩

theorem parseNatCore_natDigitsAux {fuel n : Nat} (h : n < fuel) (acc : Nat) :
    parseNatCore (natDigitsAux fuel n) acc =
      some (acc * 10 ^ (natDigitsAux fuel n).length + n) := by
  induction fuel generalizing n acc with
  | zero => omega
  | succ fuel ih =>
    by_cases h10 : n < 10
    · simp [natDigitsAux, h10, parseNatCore, digitVal?_digitChar h10]
    · have hdiv : n / 10 < fuel := by
        have := Nat.div_lt_self (show 0 < n by omega) (show 1 < 10 by omega)
        omega
      have hmod : n % 10 < 10 := Nat.mod_lt _ (by omega)
      rw [natDigitsAux, if_neg h10, parseNatCore_append, ih hdiv acc]
      simp only [parseNatCore, digitVal?_digitChar hmod, List.length_append,
        List.length_cons, List.length_nil, Nat.zero_add]
      congr 1
      have hdm : n / 10 * 10 + n % 10 = n := Nat.div_add_mod' n 10
      calc (acc * 10 ^ (natDigitsAux fuel (n / 10)).length + n / 10) * 10 + n % 10
          = acc * (10 ^ (natDigitsAux fuel (n / 10)).length * 10) +
              (n / 10 * 10 + n % 10) := by ring
        _ = acc * 10 ^ ((natDigitsAux fuel (n / 10)).length + 1) + n := by
              rw [hdm, pow_succ]

theorem parseNat_printNat (n : Nat) : parseNat (printNat n) = some n := by
  have h : n < n + 1 := Nat.lt_succ_self n
  have hne := natDigitsAux_ne_nil h
  have hcore := parseNatCore_natDigitsAux h 0
  cases hd : natDigitsAux (n + 1) n with
  | nil => exact absurd hd hne
  | cons c cs =>
    rw [hd] at hcore
    simp only [printNat, natDigits, hd, parseNat]
    simpa using hcore

theorem digitChar_ne_dash {d : Nat} (h : d < 10) : digitChar d ≠ '-' := by
  interval_cases d <;> decide

theorem parseInt_printInt (i : Int) : parseInt (printInt i) = some i := by
  by_cases hneg : i < 0
  · have h : i.natAbs < i.natAbs + 1 := Nat.lt_succ_self _
    have hne := natDigitsAux_ne_nil h
    have hcore := parseNatCore_natDigitsAux h 0
    rw [zero_mul, zero_add] at hcore
    simp only [printInt, if_pos hneg, parseInt, natDigits]
    rw [if_pos (by trivial), if_neg hne, hcore]
    simp only [Option.map_some']
    rw [Option.some.injEq]
    simp only [Int.ofNat_eq_natCast]
    omega
  · have h : i.natAbs < i.natAbs + 1 := Nat.lt_succ_self _
    have hne := natDigitsAux_ne_nil h
    have hcore := parseNatCore_natDigitsAux h 0
    rw [zero_mul, zero_add] at hcore
    simp only [printInt, if_neg hneg, printNat, natDigits]
    cases hd : natDigitsAux (i.natAbs + 1) i.natAbs with
    | nil => exact absurd hd hne
    | cons c cs =>
      obtain ⟨d, hd10, hcd⟩ := natDigitsAux_all_digits c (hd ▸ List.mem_cons_self c cs)
      rw [hd] at hcore
      simp only [parseInt]
      rw [if_neg (hcd ▸ digitChar_ne_dash hd10), hcore]
      simp only [Option.map_some']
      rw [Option.some.injEq]
      simp only [Int.ofNat_eq_natCast]
      omega

/-! ## Lookup lemmas over the element tree -/

@[simp] theorem elemsNamed_nil (n : String) : elemsNamed n [] = [] := rfl

@[simp] theorem elemsNamed_cons_elem (n m : String) (a : List (String × String))
    (k : List Xml) (cs : List Xml) :
    elemsNamed n (Xml.elem m a k :: cs) =
      if m == n then (a, k) :: elemsNamed n cs else elemsNamed n cs := by
  by_cases h : m = n <;> simp [elemsNamed, List.filterMap_cons, h]

@[simp] theorem elemsNamed_cons_text (n s : String) (cs : List Xml) :
    elemsNamed n (Xml.text s :: cs) = elemsNamed n cs := by
  simp [elemsNamed, List.filterMap_cons]

@[simp] theorem elemsNamed_append (n : String) (xs ys : List Xml) :
    elemsNamed n (xs ++ ys) = elemsNamed n xs ++ elemsNamed n ys := by
  simp [elemsNamed, List.filterMap_append]

@[simp] theorem childText_nil : childText [] = "" := rfl

@[simp] theorem childText_cons_text (s : String) (rest : List Xml) :
    childText (Xml.text s :: rest) = s ++ childText rest := rfl

@[simp] theorem childText_cons_elem (n : String) (a : List (String × String))
    (k : List Xml) (rest : List Xml) :
    childText (Xml.elem n a k :: rest) = childText rest := rfl

@[simp] theorem elemsNamed_optChild (n m : String) (o : Option String) :
    elemsNamed n (optChild m o) =
      if m == n then o.toList.map (fun s => (([] : List (String × String)), [Xml.text s]))
      else [] := by
  cases o <;> by_cases h : m = n <;> simp [optChild, textElem, h]

@[simp] theorem lookupAttr_nil (k : String) : lookupAttr k [] = none := rfl

@[simp] theorem lookupAttr_cons (k k' v : String) (rest : List (String × String)) :
    lookupAttr k ((k', v) :: rest) =
      if k' == k then some v else lookupAttr k rest := by
  by_cases h : k' = k <;> simp [lookupAttr, List.find?_cons, h]

@[simp] theorem lookupAttr_append (k : String) (xs ys : List (String × String)) :
    lookupAttr k (xs ++ ys) = (lookupAttr k xs).orElse fun _ => lookupAttr k ys := by
  induction xs with
  | nil => simp
  | cons q rest ih =>
    obtain ⟨k', v⟩ := q
    by_cases h : k' = k <;> simp [h, ih]

@[simp] theorem lookupAttr_optAttr (k k' : String) (o : Option String) :
    lookupAttr k (optAttr k' o) = if k' == k then o else none := by
  cases o <;> by_cases h : k' = k <;> simp [optAttr, h]

@[simp] theorem childStr_append (n : String) (xs ys : List Xml) :
    childStr n (xs ++ ys) =
      ((elemsNamed n xs ++ elemsNamed n ys).head?).map fun e => childText e.2 := by
  simp [childStr]

theorem elemsNamed_map_eq_nil {α : Type} {g : α → Xml} {tag : String}
    (hg : ∀ x, ∃ a k, g x = Xml.elem tag a k) {n : String}
    (h : (tag == n) = false) (l : List α) :
    elemsNamed n (l.map g) = [] := by
  induction l with
  | nil => rfl
  | cons x t ih =>
    obtain ⟨a, k, hx⟩ := hg x
    simp [hx, h, ih]

theorem encodePlugin_shape (p : Plugin) :
    ∃ a k, encodePlugin p = Xml.elem "plugin" a k := ⟨_, _, rfl⟩

theorem encodeInclude_shape (i : Include) :
    ∃ a k, encodeInclude i = Xml.elem "include" a k := ⟨_, _, rfl⟩

theorem encodeNestedModel_shape (m : NestedModel) :
    ∃ a k, encodeNestedModel m = Xml.elem "model" a k := ⟨_, _, rfl⟩

theorem encodeFrame_shape (f : Frame) :
    ∃ a k, encodeFrame f = Xml.elem "frame" a k := ⟨_, _, rfl⟩

theorem encodeLink_shape (l : Link) :
    ∃ a k, encodeLink l = Xml.elem "link" a k := ⟨_, _, rfl⟩

theorem encodeJoint_shape (j : Joint) :
    ∃ a k, encodeJoint j = Xml.elem "joint" a k := ⟨_, _, rfl⟩

theorem encodeGripper_shape (g : Gripper) :
    ∃ a k, encodeGripper g = Xml.elem "gripper" a k := ⟨_, _, rfl⟩

theorem elemsNamed_map_encodePlugin (n : String) (l : List Plugin) :
    elemsNamed n (l.map encodePlugin) =
      if ("plugin" == n) then l.map (fun p => (pluginAttrs p, ([] : List Xml)))
      else [] := by
  induction l with
  | nil => by_cases h : "plugin" = n <;> simp [h]
  | cons p t ih => by_cases h : "plugin" = n <;> simp [encodePlugin, h, ih]

theorem elemsNamed_map_encodeInclude (n : String) (l : List Include) :
    elemsNamed n (l.map encodeInclude) =
      if ("include" == n) then l.map (fun i => (([] : List (String × String)), includeChildren i))
      else [] := by
  induction l with
  | nil => by_cases h : "include" = n <;> simp [h]
  | cons p t ih => by_cases h : "include" = n <;> simp [encodeInclude, h, ih]

theorem elemsNamed_map_encodeNestedModel (n : String) (l : List NestedModel) :
    elemsNamed n (l.map encodeNestedModel) =
      if ("model" == n) then l.map (fun m => ([("name", m.name)], ([] : List Xml)))
      else [] := by
  induction l with
  | nil => by_cases h : "model" = n <;> simp [h]
  | cons p t ih => by_cases h : "model" = n <;> simp [encodeNestedModel, h, ih]

theorem elemsNamed_map_encodeFrame (n : String) (l : List Frame) :
    elemsNamed n (l.map encodeFrame) =
      if ("frame" == n) then l.map (fun f => (frameAttrs f, frameChildren f))
      else [] := by
  induction l with
  | nil => by_cases h : "frame" = n <;> simp [h]
  | cons p t ih => by_cases h : "frame" = n <;> simp [encodeFrame, h, ih]

theorem elemsNamed_map_encodeLink (n : String) (l : List Link) :
    elemsNamed n (l.map encodeLink) =
      if ("link" == n) then l.map (fun x => ([("name", x.name)], ([] : List Xml)))
      else [] := by
  induction l with
  | nil => by_cases h : "link" = n <;> simp [h]
  | cons p t ih => by_cases h : "link" = n <;> simp [encodeLink, h, ih]

theorem elemsNamed_map_encodeJoint (n : String) (l : List Joint) :
    elemsNamed n (l.map encodeJoint) =
      if ("joint" == n) then l.map (fun _ => (([] : List (String × String)), ([] : List Xml)))
      else [] := by
  induction l with
  | nil => by_cases h : "joint" = n <;> simp [h]
  | cons p t ih => by_cases h : "joint" = n <;> simp [encodeJoint, h, ih]

theorem elemsNamed_map_encodeGripper (n : String) (l : List Gripper) :
    elemsNamed n (l.map encodeGripper) =
      if ("gripper" == n) then l.map (fun g => ([("name", g.name)], gripperChildren g))
      else [] := by
  induction l with
  | nil => by_cases h : "gripper" = n <;> simp [h]
  | cons p t ih => by_cases h : "gripper" = n <;> simp [encodeGripper, h, ih]

/-! ## Equation lemmas for the scalar decoders -/

theorem reqAttr_eq_none {k : String} {attrs : List (String × String)}
    (h : lookupAttr k attrs = none) :
    reqAttr k attrs = .error (.missingField k) := by
  unfold reqAttr
  rw [h]

theorem reqAttr_eq_some {k : String} {attrs : List (String × String)} {v : String}
    (h : lookupAttr k attrs = some v) : reqAttr k attrs = .ok v := by
  unfold reqAttr
  rw [h]

theorem reqChildStr_eq_none {n : String} {cs : List Xml}
    (h : childStr n cs = none) :
    reqChildStr n cs = .error (.missingField n) := by
  unfold reqChildStr
  rw [h]

theorem reqChildStr_eq_some {n : String} {cs : List Xml} {v : String}
    (h : childStr n cs = some v) : reqChildStr n cs = .ok v := by
  unfold reqChildStr
  rw [h]

theorem childBool_eq_none {n : String} {cs : List Xml}
    (h : childStr n cs = none) : childBool n cs = .ok none := by
  unfold childBool
  rw [h]

theorem childBool_eq_some {n : String} {cs : List Xml} {s : String}
    (h : childStr n cs = some s) :
    childBool n cs = (decodeBoolText n s).map some := by
  unfold childBool
  rw [h]

theorem childBoolD_eq_none {dflt : Bool} {n : String} {cs : List Xml}
    (h : childStr n cs = none) : childBoolD dflt n cs = .ok (some dflt) := by
  unfold childBoolD
  rw [h]

theorem childBoolD_eq_some {dflt : Bool} {n : String} {cs : List Xml} {s : String}
    (h : childStr n cs = some s) :
    childBoolD dflt n cs = (decodeBoolText n s).map some := by
  unfold childBoolD
  rw [h]

theorem childU64_eq_none {n : String} {cs : List Xml}
    (h : childStr n cs = none) : childU64 n cs = .ok none := by
  unfold childU64
  rw [h]

theorem childU64_eq_some {n : String} {cs : List Xml} {s : String}
    (h : childStr n cs = some s) :
    childU64 n cs = (decodeU64Text n s).map some := by
  unfold childU64
  rw [h]

theorem childI64_eq_none {n : String} {cs : List Xml}
    (h : childStr n cs = none) : childI64 n cs = .ok none := by
  unfold childI64
  rw [h]

theorem childI64_eq_some {n : String} {cs : List Xml} {s : String}
    (h : childStr n cs = some s) :
    childI64 n cs = (decodeI64Text n s).map some := by
  unfold childI64
  rw [h]

theorem decodeU64Text_eq_none {n s : String} (h : parseNat s = none) :
    decodeU64Text n s = .error (.typeMismatch n) := by
  unfold decodeU64Text
  rw [h]

theorem decodeU64Text_eq_some {n s : String} {v : Nat} (h : parseNat s = some v) :
    decodeU64Text n s =
      if v < 2 ^ 64 then .ok v else .error (.typeMismatch n) := by
  unfold decodeU64Text
  rw [h]

theorem decodeI64Text_eq_none {n s : String} (h : parseInt s = none) :
    decodeI64Text n s = .error (.typeMismatch n) := by
  unfold decodeI64Text
  rw [h]

theorem decodeI64Text_eq_some {n s : String} {v : Int} (h : parseInt s = some v) :
    decodeI64Text n s =
      if -(2 ^ 63) ≤ v ∧ v < 2 ^ 63 then .ok v else .error (.typeMismatch n) := by
  unfold decodeI64Text
  rw [h]

theorem childGraspCheck_eq_none {cs : List Xml}
    (h : (elemsNamed "grasp_check" cs).head? = none) :
    childGraspCheck cs = .ok none := by
  unfold childGraspCheck
  rw [h]

theorem childGraspCheck_eq_some {cs : List Xml}
    {e : List (String × String) × List Xml}
    (h : (elemsNamed "grasp_check" cs).head? = some e) :
    childGraspCheck cs = (decodeGraspCheck e.1 e.2).map some := by
  unfold childGraspCheck
  rw [h]

/-! ## Decode establishes well-formedness -/

theorem childBoolD_isSome {dflt : Bool} {n : String} {cs : List Xml}
    {o : Option Bool} (h : childBoolD dflt n cs = .ok o) : o.isSome = true := by
  unfold childBoolD at h
  cases hs : childStr n cs with
  | none => rw [hs] at h; injection h with h; subst h; rfl
  | some s =>
    rw [hs] at h
    rw [except_map_ok] at h
    obtain ⟨b, _, hb⟩ := h
    subst hb
    rfl

theorem childU64_range {n : String} {cs : List Xml} {o : Option Nat}
    (h : childU64 n cs = .ok o) : ∀ v ∈ o, v < 2 ^ 64 := by
  cases hs : childStr n cs with
  | none => rw [childU64_eq_none hs] at h; injection h with h; subst h; simp
  | some s =>
    rw [childU64_eq_some hs] at h
    cases hp : parseNat s with
    | none => rw [decodeU64Text_eq_none hp] at h; simp [Except.map] at h
    | some v =>
      rw [decodeU64Text_eq_some hp] at h
      by_cases hv : v < 2 ^ 64
      · rw [if_pos hv] at h
        simp only [Except.map] at h
        injection h with h
        subst h
        simpa using hv
      · rw [if_neg hv] at h; simp [Except.map] at h

theorem childI64_range {n : String} {cs : List Xml} {o : Option Int}
    (h : childI64 n cs = .ok o) : ∀ v ∈ o, -(2 ^ 63) ≤ v ∧ v < 2 ^ 63 := by
  cases hs : childStr n cs with
  | none => rw [childI64_eq_none hs] at h; injection h with h; subst h; simp
  | some s =>
    rw [childI64_eq_some hs] at h
    cases hp : parseInt s with
    | none => rw [decodeI64Text_eq_none hp] at h; simp [Except.map] at h
    | some v =>
      rw [decodeI64Text_eq_some hp] at h
      by_cases hv : -(2 ^ 63) ≤ v ∧ v < 2 ^ 63
      · rw [if_pos hv] at h
        simp only [Except.map] at h
        injection h with h
        subst h
        simpa using hv
      · rw [if_neg hv] at h; simp [Except.map] at h

theorem decodeGraspCheck_wf {a : List (String × String)} {cs : List Xml}
    {g : GraspCheck} (h : decodeGraspCheck a cs = .ok g) : g.Wf := by
  unfold decodeGraspCheck at h
  rw [except_bind_ok] at h; obtain ⟨d1, hd1, h⟩ := h
  rw [except_bind_ok] at h; obtain ⟨d2, hd2, h⟩ := h
  rw [except_bind_ok] at h; obtain ⟨d3, hd3, h⟩ := h
  rw [except_pure_ok] at h; subst h
  exact ⟨childI64_range hd1, childI64_range hd2, childU64_range hd3⟩

theorem decodeGripper_wf {a : List (String × String)} {cs : List Xml}
    {g : Gripper} (h : decodeGripper a cs = .ok g) : g.Wf := by
  unfold decodeGripper at h
  rw [except_bind_ok] at h; obtain ⟨nm, hnm, h⟩ := h
  rw [except_bind_ok] at h; obtain ⟨gc, hgc, h⟩ := h
  rw [except_pure_ok] at h; subst h
  intro x hx
  cases hh : (elemsNamed "grasp_check" cs).head? with
  | none =>
    rw [childGraspCheck_eq_none hh] at hgc
    injection hgc with hgc
    subst hgc
    simp at hx
  | some e =>
    rw [childGraspCheck_eq_some hh] at hgc
    rw [except_map_ok] at hgc
    obtain ⟨gcv, hgcv, hsome⟩ := hgc
    subst hsome
    rw [Option.mem_def, Option.some.injEq] at hx
    subst hx
    exact decodeGraspCheck_wf hgcv

theorem decodeModel_wf {a : List (String × String)} {cs : List Xml}
    {m : Model} (h : decodeModel a cs = .ok m) : m.Wf := by
  unfold decodeModel at h
  rw [except_bind_ok] at h; obtain ⟨nm, _, h⟩ := h
  rw [except_bind_ok] at h; obtain ⟨st, _, h⟩ := h
  rw [except_bind_ok] at h; obtain ⟨sc, _, h⟩ := h
  rw [except_bind_ok] at h; obtain ⟨aad, haad, h⟩ := h
  rw [except_bind_ok] at h; obtain ⟨ew, hew, h⟩ := h
  rw [except_bind_ok] at h; obtain ⟨inc, _, h⟩ := h
  rw [except_bind_ok] at h; obtain ⟨nms, _, h⟩ := h
  rw [except_bind_ok] at h; obtain ⟨frs, _, h⟩ := h
  rw [except_bind_ok] at h; obtain ⟨lks, _, h⟩ := h
  rw [except_bind_ok] at h; obtain ⟨jts, _, h⟩ := h
  rw [except_bind_ok] at h; obtain ⟨pls, _, h⟩ := h
  rw [except_bind_ok] at h; obtain ⟨grs, hgrs, h⟩ := h
  rw [except_pure_ok] at h; subst h
  exact ⟨childBoolD_isSome haad, childBoolD_isSome hew,
    mapExcept_ok_forall (fun e g hg => decodeGripper_wf hg) _ _ hgrs⟩

theorem decodeSdfType_nil {cs : List Xml}
    (h : recognizedRootChildren cs = []) :
    decodeSdfType cs = .error (.schemaMismatch "sdf_type") := by
  unfold decodeSdfType
  rw [h]

theorem decodeSdfType_singleton {cs : List Xml} {n : String}
    {a : List (String × String)} {k : List Xml}
    (h : recognizedRootChildren cs = [(n, a, k)]) :
    decodeSdfType cs =
      if n == "world" then (decodeWorld a k).map SdfType.world
      else if n == "model" then (decodeModel a k).map SdfType.model
      else if n == "actor" then .ok SdfType.actor
      else .ok SdfType.light := by
  unfold decodeSdfType
  rw [h]

theorem decodeSdfType_multi {cs : List Xml} {e1 e2 : String × List (String × String) × List Xml}
    {rest : List (String × List (String × String) × List Xml)}
    (h : recognizedRootChildren cs = e1 :: e2 :: rest) :
    decodeSdfType cs = .error (.schemaMismatch "sdf_type") := by
  unfold decodeSdfType
  rw [h]

theorem decodeSdfType_wf {cs : List Xml} {t : SdfType}
    (h : decodeSdfType cs = .ok t) : t.Wf := by
  cases hr : recognizedRootChildren cs with
  | nil => rw [decodeSdfType_nil hr] at h; simp at h
  | cons e rest =>
    cases rest with
    | nil =>
      obtain ⟨n, a, k⟩ := e
      rw [decodeSdfType_singleton hr] at h
      by_cases hw : (n == "world") = true
      · rw [if_pos hw] at h
        rw [except_map_ok] at h
        obtain ⟨w, _, hw'⟩ := h
        subst hw'
        trivial
      · rw [if_neg hw] at h
        by_cases hm : (n == "model") = true
        · rw [if_pos hm] at h
          rw [except_map_ok] at h
          obtain ⟨mm, hmm, h'⟩ := h
          subst h'
          exact decodeModel_wf hmm
        · rw [if_neg hm] at h
          by_cases ha : (n == "actor") = true
          · rw [if_pos ha] at h; injection h with h; subst h; trivial
          · rw [if_neg ha] at h; injection h with h; subst h; trivial
    | cons e2 rest2 => rw [decodeSdfType_multi hr] at h; simp at h

theorem decode_wf {x : Xml} {d : Sdf} (h : decode x = .ok d) : d.Wf := by
  cases x with
  | text s => simp [decode] at h
  | elem n attrs cs =>
    simp only [decode] at h
    by_cases hn : (n == "sdf") = true
    · rw [if_pos hn] at h
      rw [except_map_ok] at h
      obtain ⟨t, ht, hd⟩ := h
      subst hd
      exact decodeSdfType_wf ht
    · rw [if_neg hn] at h
      simp at h

/-! ## Encoding decodes back: leaf entities -/

theorem decodePlugin_enc (p : Plugin) (k : List Xml) :
    decodePlugin (pluginAttrs p) k = .ok p := rfl

theorem decodeNestedModel_enc (m : NestedModel) (k : List Xml) :
    decodeNestedModel [("name", m.name)] k = .ok m := rfl

theorem decodeLink_enc (l : Link) (k : List Xml) :
    decodeLink [("name", l.name)] k = .ok l := rfl

theorem decodeJoint_enc (j : Joint) (a : List (String × String)) (k : List Xml) :
    decodeJoint a k = .ok j := rfl

theorem decodeWorld_enc (w : World) (a : List (String × String)) (k : List Xml) :
    decodeWorld a k = .ok w := rfl

theorem decodeFrame_enc (f : Frame) :
    decodeFrame (frameAttrs f) (frameChildren f) = .ok f := by
  obtain ⟨nm, att, ps⟩ := f
  cases att <;> cases ps <;>
    simp [decodeFrame, frameAttrs, frameChildren, reqAttr, lookupAttr, optAttr,
      childStr, optChild, textElem]

theorem childI64_graspCheckChildren_detach (g : GraspCheck)
    (hw : ∀ v ∈ g.detach_step, -(2 ^ 63) ≤ v ∧ v < 2 ^ 63) :
    childI64 "detach_step" (graspCheckChildren g) = .ok g.detach_step := by
  cases hd : g.detach_step with
  | none => simp [graspCheckChildren, childI64, childStr, hd]
  | some v =>
    have hv := hw v (by simp [hd])
    have hc1 : -(9223372036854775808 : Int) ≤ v := by omega
    have hc2 : v < (9223372036854775808 : Int) := by omega
    simp [graspCheckChildren, childI64, childStr, hd, decodeI64Text,
      parseInt_printInt, hc1, hc2]

theorem childI64_graspCheckChildren_attach (g : GraspCheck)
    (hw : ∀ v ∈ g.attach_step, -(2 ^ 63) ≤ v ∧ v < 2 ^ 63) :
    childI64 "attach_step" (graspCheckChildren g) = .ok g.attach_step := by
  cases hd : g.attach_step with
  | none => simp [graspCheckChildren, childI64, childStr, hd]
  | some v =>
    have hv := hw v (by simp [hd])
    have hc1 : -(9223372036854775808 : Int) ≤ v := by omega
    have hc2 : v < (9223372036854775808 : Int) := by omega
    simp [graspCheckChildren, childI64, childStr, hd, decodeI64Text,
      parseInt_printInt, hc1, hc2]

theorem childU64_graspCheckChildren_min (g : GraspCheck)
    (hw : ∀ v ∈ g.min_contact_count, v < 2 ^ 64) :
    childU64 "min_contact_count" (graspCheckChildren g) = .ok g.min_contact_count := by
  cases hd : g.min_contact_count with
  | none => simp [graspCheckChildren, childU64, childStr, hd]
  | some v =>
    have hv := hw v (by simp [hd])
    have hc : v < (18446744073709551616 : Nat) := by omega
    simp [graspCheckChildren, childU64, childStr, hd, decodeU64Text,
      parseNat_printNat, hc]

theorem decodeGraspCheck_enc (a : List (String × String)) (g : GraspCheck)
    (hw : g.Wf) : decodeGraspCheck a (graspCheckChildren g) = .ok g := by
  obtain ⟨hw1, hw2, hw3⟩ := hw
  simp [decodeGraspCheck, childI64_graspCheckChildren_detach g hw1,
    childI64_graspCheckChildren_attach g hw2,
    childU64_graspCheckChildren_min g hw3]

/-! ## Encoding decodes back: option-field helpers -/

@[simp] theorem head_toList_text (o : Option String) :
    ((o.toList.map fun s => (([] : List (String × String)), [Xml.text s])).head?).map
      (fun e => childText e.2) = o := by
  cases o <;> simp

@[simp] theorem map_comp_toList_head (o : Option String) :
    Option.map ((fun (e : List (String × String) × List Xml) => childText e.2) ∘
      fun s => (([] : List (String × String)), [Xml.text s])) o.toList.head? = o := by
  cases o <;> simp

theorem childBool_of_childStr_bool {n : String} {cs : List Xml} {o : Option Bool}
    (h : childStr n cs = o.map encodeBool) : childBool n cs = .ok o := by
  cases o with
  | none => exact childBool_eq_none (by simpa using h)
  | some b =>
    rw [childBool_eq_some (by simpa using h)]
    cases b <;> simp [decodeBoolText, encodeBool]

theorem childBoolD_of_childStr_bool {dflt : Bool} {n : String} {cs : List Xml}
    {o : Option Bool} (h : childStr n cs = o.map encodeBool)
    (ho : o.isSome = true) : childBoolD dflt n cs = .ok o := by
  cases o with
  | none => simp at ho
  | some b =>
    rw [childBoolD_eq_some (by simpa using h)]
    cases b <;> simp [decodeBoolText, encodeBool]

@[simp] theorem elemsNamed_optElem_graspCheck (n : String) (o : Option GraspCheck) :
    elemsNamed n (optElem encodeGraspCheck o) =
      if "grasp_check" == n then
        o.toList.map fun gc => (([] : List (String × String)), graspCheckChildren gc)
      else [] := by
  cases o <;> by_cases h : "grasp_check" = n <;> simp [optElem, encodeGraspCheck, h]

/-! ## Encoding decodes back: gripper and include -/

theorem childGraspCheck_gripperChildren (g : Gripper) (hw : g.Wf) :
    childGraspCheck (gripperChildren g) = .ok g.grasp_check := by
  cases hgc : g.grasp_check with
  | none =>
    apply childGraspCheck_eq_none
    simp [gripperChildren, hgc, optElem]
  | some gc =>
    have he : (elemsNamed "grasp_check" (gripperChildren g)).head? =
        some (([] : List (String × String)), graspCheckChildren gc) := by
      simp [gripperChildren, hgc, optElem, encodeGraspCheck]
    rw [childGraspCheck_eq_some he]
    rw [decodeGraspCheck_enc _ gc (hw gc (by simp [hgc]))]
    rfl

theorem decodeGripper_enc (g : Gripper) (hw : g.Wf) :
    decodeGripper [("name", g.name)] (gripperChildren g) = .ok g := by
  have hgl : childStr "gripper_link" (gripperChildren g) = g.gripper_link := by
    simp [gripperChildren, childStr]
  have hpl : childStr "palm_link" (gripperChildren g) = g.palm_link := by
    simp [gripperChildren, childStr]
  simp [decodeGripper, reqAttr_eq_some (show lookupAttr "name" [("name", g.name)] = some g.name by simp),
    childGraspCheck_gripperChildren g hw, hgl, hpl]

theorem decodeInclude_enc (a : List (String × String)) (i : Include) :
    decodeInclude a (includeChildren i) = .ok i := by
  have huri : childStr "uri" (includeChildren i) = some i.uri := by
    simp [includeChildren, childStr, textElem, optBoolChild,
      elemsNamed_map_encodePlugin]
  have hnm : childStr "name" (includeChildren i) = i.name := by
    simp [includeChildren, childStr, textElem, optBoolChild,
      elemsNamed_map_encodePlugin]
  have hst : childBool "static" (includeChildren i) = .ok i.static := by
    apply childBool_of_childStr_bool
    simp [includeChildren, childStr, textElem, optBoolChild,
      elemsNamed_map_encodePlugin]
  have hpf : childStr "placement_frame" (includeChildren i) = i.placement_frame := by
    simp [includeChildren, childStr, textElem, optBoolChild,
      elemsNamed_map_encodePlugin]
  have hps : childStr "pose" (includeChildren i) = i.pose := by
    simp [includeChildren, childStr, textElem, optBoolChild,
      elemsNamed_map_encodePlugin]
  have hplug : elemsNamed "plugin" (includeChildren i) =
      i.plugin.map fun p => (pluginAttrs p, ([] : List Xml)) := by
    simp [includeChildren, textElem, optBoolChild, elemsNamed_map_encodePlugin]
  have hmapp := mapExcept_roundtrip (fun e => decodePlugin e.1 e.2)
    (fun p => (pluginAttrs p, ([] : List Xml))) i.plugin
    (fun p _ => decodePlugin_enc p [])
  simp [decodeInclude, reqChildStr_eq_some huri, hnm, hst, hpf, hps, hplug, hmapp]

/-! ## Encoding decodes back: model and document -/

theorem decodeModel_enc (m : Model) (hw : m.Wf) :
    decodeModel (modelAttrs m) (modelChildren m) = .ok m := by
  obtain ⟨hw1, hw2, hw3⟩ := hw
  have hname : reqAttr "name" (modelAttrs m) = .ok m.name :=
    reqAttr_eq_some (by simp [modelAttrs])
  have hcl : lookupAttr "canonical_link" (modelAttrs m) = m.canonical_link := by
    simp [modelAttrs]
  have hpf : lookupAttr "placement_frame" (modelAttrs m) = m.placement_frame := by
    simp [modelAttrs]
  have hst : childBool "static" (modelChildren m) = .ok m.static := by
    apply childBool_of_childStr_bool
    simp [modelChildren, childStr, optBoolChild, elemsNamed_map_encodePlugin,
      elemsNamed_map_encodeInclude, elemsNamed_map_encodeNestedModel,
      elemsNamed_map_encodeFrame, elemsNamed_map_encodeLink,
      elemsNamed_map_encodeJoint, elemsNamed_map_encodeGripper]
  have hsc : childBool "self_collide" (modelChildren m) = .ok m.self_collide := by
    apply childBool_of_childStr_bool
    simp [modelChildren, childStr, optBoolChild, elemsNamed_map_encodePlugin,
      elemsNamed_map_encodeInclude, elemsNamed_map_encodeNestedModel,
      elemsNamed_map_encodeFrame, elemsNamed_map_encodeLink,
      elemsNamed_map_encodeJoint, elemsNamed_map_encodeGripper]
  have haad : childBoolD true "allow_auto_disable" (modelChildren m) =
      .ok m.allow_auto_disable := by
    apply childBoolD_of_childStr_bool ?_ hw1
    simp [modelChildren, childStr, optBoolChild, elemsNamed_map_encodePlugin,
      elemsNamed_map_encodeInclude, elemsNamed_map_encodeNestedModel,
      elemsNamed_map_encodeFrame, elemsNamed_map_encodeLink,
      elemsNamed_map_encodeJoint, elemsNamed_map_encodeGripper]
  have hew : childBoolD false "enable_wind" (modelChildren m) =
      .ok m.enable_wind := by
    apply childBoolD_of_childStr_bool ?_ hw2
    simp [modelChildren, childStr, optBoolChild, elemsNamed_map_encodePlugin,
      elemsNamed_map_encodeInclude, elemsNamed_map_encodeNestedModel,
      elemsNamed_map_encodeFrame, elemsNamed_map_encodeLink,
      elemsNamed_map_encodeJoint, elemsNamed_map_encodeGripper]
  have hpose : childStr "pose" (modelChildren m) = m.pose := by
    simp [modelChildren, childStr, optBoolChild, elemsNamed_map_encodePlugin,
      elemsNamed_map_encodeInclude, elemsNamed_map_encodeNestedModel,
      elemsNamed_map_encodeFrame, elemsNamed_map_encodeLink,
      elemsNamed_map_encodeJoint, elemsNamed_map_encodeGripper]
  have hinc : mapExcept (fun e => decodeInclude e.1 e.2)
      (elemsNamed "include" (modelChildren m)) = .ok m.«include» := by
    have he : elemsNamed "include" (modelChildren m) =
        m.«include».map fun i => (([] : List (String × String)), includeChildren i) := by
      simp [modelChildren, optBoolChild, elemsNamed_map_encodePlugin,
        elemsNamed_map_encodeInclude, elemsNamed_map_encodeNestedModel,
        elemsNamed_map_encodeFrame, elemsNamed_map_encodeLink,
        elemsNamed_map_encodeJoint, elemsNamed_map_encodeGripper]
    rw [he]
    exact mapExcept_roundtrip (fun e => decodeInclude e.1 e.2)
      (fun i => (([] : List (String × String)), includeChildren i)) m.«include»
      (fun i _ => decodeInclude_enc [] i)
  have hnm : mapExcept (fun e => decodeNestedModel e.1 e.2)
      (elemsNamed "model" (modelChildren m)) = .ok m.model := by
    have he : elemsNamed "model" (modelChildren m) =
        m.model.map fun x => ([("name", x.name)], ([] : List Xml)) := by
      simp [modelChildren, optBoolChild, elemsNamed_map_encodePlugin,
        elemsNamed_map_encodeInclude, elemsNamed_map_encodeNestedModel,
        elemsNamed_map_encodeFrame, elemsNamed_map_encodeLink,
        elemsNamed_map_encodeJoint, elemsNamed_map_encodeGripper]
    rw [he]
    exact mapExcept_roundtrip (fun e => decodeNestedModel e.1 e.2)
      (fun x => ([("name", x.name)], ([] : List Xml))) m.model
      (fun x _ => decodeNestedModel_enc x [])
  have hfr : mapExcept (fun e => decodeFrame e.1 e.2)
      (elemsNamed "frame" (modelChildren m)) = .ok m.frame := by
    have he : elemsNamed "frame" (modelChildren m) =
        m.frame.map fun f => (frameAttrs f, frameChildren f) := by
      simp [modelChildren, optBoolChild, elemsNamed_map_encodePlugin,
        elemsNamed_map_encodeInclude, elemsNamed_map_encodeNestedModel,
        elemsNamed_map_encodeFrame, elemsNamed_map_encodeLink,
        elemsNamed_map_encodeJoint, elemsNamed_map_encodeGripper]
    rw [he]
    exact mapExcept_roundtrip (fun e => decodeFrame e.1 e.2)
      (fun f => (frameAttrs f, frameChildren f)) m.frame
      (fun f _ => decodeFrame_enc f)
  have hlk : mapExcept (fun e => decodeLink e.1 e.2)
      (elemsNamed "link" (modelChildren m)) = .ok m.link := by
    have he : elemsNamed "link" (modelChildren m) =
        m.link.map fun x => ([("name", x.name)], ([] : List Xml)) := by
      simp [modelChildren, optBoolChild, elemsNamed_map_encodePlugin,
        elemsNamed_map_encodeInclude, elemsNamed_map_encodeNestedModel,
        elemsNamed_map_encodeFrame, elemsNamed_map_encodeLink,
        elemsNamed_map_encodeJoint, elemsNamed_map_encodeGripper]
    rw [he]
    exact mapExcept_roundtrip (fun e => decodeLink e.1 e.2)
      (fun x => ([("name", x.name)], ([] : List Xml))) m.link
      (fun x _ => decodeLink_enc x [])
  have hjt : mapExcept (fun e => decodeJoint e.1 e.2)
      (elemsNamed "joint" (modelChildren m)) = .ok m.joint := by
    have he : elemsNamed "joint" (modelChildren m) =
        m.joint.map fun _ => (([] : List (String × String)), ([] : List Xml)) := by
      simp [modelChildren, optBoolChild, elemsNamed_map_encodePlugin,
        elemsNamed_map_encodeInclude, elemsNamed_map_encodeNestedModel,
        elemsNamed_map_encodeFrame, elemsNamed_map_encodeLink,
        elemsNamed_map_encodeJoint, elemsNamed_map_encodeGripper]
    rw [he]
    exact mapExcept_roundtrip (fun e => decodeJoint e.1 e.2)
      (fun _ => (([] : List (String × String)), ([] : List Xml))) m.joint
      (fun j _ => decodeJoint_enc j _ _)
  have hpl : mapExcept (fun e => decodePlugin e.1 e.2)
      (elemsNamed "plugin" (modelChildren m)) = .ok m.plugin := by
    have he : elemsNamed "plugin" (modelChildren m) =
        m.plugin.map fun p => (pluginAttrs p, ([] : List Xml)) := by
      simp [modelChildren, optBoolChild, elemsNamed_map_encodePlugin,
        elemsNamed_map_encodeInclude, elemsNamed_map_encodeNestedModel,
        elemsNamed_map_encodeFrame, elemsNamed_map_encodeLink,
        elemsNamed_map_encodeJoint, elemsNamed_map_encodeGripper]
    rw [he]
    exact mapExcept_roundtrip (fun e => decodePlugin e.1 e.2)
      (fun p => (pluginAttrs p, ([] : List Xml))) m.plugin
      (fun p _ => decodePlugin_enc p [])
  have hgr : mapExcept (fun e => decodeGripper e.1 e.2)
      (elemsNamed "gripper" (modelChildren m)) = .ok m.gripper := by
    have he : elemsNamed "gripper" (modelChildren m) =
        m.gripper.map fun g => ([("name", g.name)], gripperChildren g) := by
      simp [modelChildren, optBoolChild, elemsNamed_map_encodePlugin,
        elemsNamed_map_encodeInclude, elemsNamed_map_encodeNestedModel,
        elemsNamed_map_encodeFrame, elemsNamed_map_encodeLink,
        elemsNamed_map_encodeJoint, elemsNamed_map_encodeGripper]
    rw [he]
    exact mapExcept_roundtrip (fun e => decodeGripper e.1 e.2)
      (fun g => ([("name", g.name)], gripperChildren g)) m.gripper
      (fun g hg => decodeGripper_enc g (hw3 g hg))
  simp [decodeModel, hname, hcl, hpf, hst, hsc, haad, hew, hpose, hinc, hnm,
    hfr, hlk, hjt, hpl, hgr]

theorem decodeSdfType_enc (t : SdfType) (hw : t.Wf) :
    decodeSdfType [encodeSdfType t] = .ok t := by
  cases t with
  | world w => rfl
  | actor => rfl
  | light => rfl
  | model m =>
    have hr : recognizedRootChildren [encodeSdfType (.model m)] =
        [("model", modelAttrs m, modelChildren m)] := rfl
    rw [decodeSdfType_singleton hr]
    simp [decodeModel_enc m hw]

theorem encode_decode (d : Sdf) (hw : d.Wf) : decode (encode d) = .ok d := by
  obtain ⟨v, t⟩ := d
  simp [encode, decode, decodeSdfType_enc t hw]

/-! ## Inversion helpers for the claim theorems -/

theorem childStr_of_elemsNamed_nil {n : String} {cs : List Xml}
    (h : elemsNamed n cs = []) : childStr n cs = none := by
  simp [childStr, h]

theorem decode_sdf_eq (attrs : List (String × String)) (cs : List Xml) :
    decode (.elem "sdf" attrs cs) = (decodeSdfType cs).map fun t =>
      { version := (lookupAttr "version" attrs).getD "1.8", sdf_type := t } := by
  simp [decode]

theorem decodeModel_ok_fields {a : List (String × String)} {cs : List Xml}
    {m : Model} (h : decodeModel a cs = .ok m) :
    m.canonical_link = lookupAttr "canonical_link" a ∧
    m.placement_frame = lookupAttr "placement_frame" a ∧
    childBool "static" cs = .ok m.static ∧
    childBool "self_collide" cs = .ok m.self_collide ∧
    childBoolD true "allow_auto_disable" cs = .ok m.allow_auto_disable ∧
    childBoolD false "enable_wind" cs = .ok m.enable_wind ∧
    mapExcept (fun e => decodeInclude e.1 e.2) (elemsNamed "include" cs) = .ok m.«include» ∧
    mapExcept (fun e => decodeNestedModel e.1 e.2) (elemsNamed "model" cs) = .ok m.model ∧
    mapExcept (fun e => decodeFrame e.1 e.2) (elemsNamed "frame" cs) = .ok m.frame ∧
    m.pose = childStr "pose" cs ∧
    mapExcept (fun e => decodeLink e.1 e.2) (elemsNamed "link" cs) = .ok m.link ∧
    mapExcept (fun e => decodeJoint e.1 e.2) (elemsNamed "joint" cs) = .ok m.joint ∧
    mapExcept (fun e => decodePlugin e.1 e.2) (elemsNamed "plugin" cs) = .ok m.plugin ∧
    mapExcept (fun e => decodeGripper e.1 e.2) (elemsNamed "gripper" cs) = .ok m.gripper := by
  unfold decodeModel at h
  rw [except_bind_ok] at h; obtain ⟨nm, hnm, h⟩ := h
  rw [except_bind_ok] at h; obtain ⟨st, hst, h⟩ := h
  rw [except_bind_ok] at h; obtain ⟨sc, hsc, h⟩ := h
  rw [except_bind_ok] at h; obtain ⟨aad, haad, h⟩ := h
  rw [except_bind_ok] at h; obtain ⟨ew, hew, h⟩ := h
  rw [except_bind_ok] at h; obtain ⟨inc, hinc, h⟩ := h
  rw [except_bind_ok] at h; obtain ⟨nms, hnms, h⟩ := h
  rw [except_bind_ok] at h; obtain ⟨frs, hfrs, h⟩ := h
  rw [except_bind_ok] at h; obtain ⟨lks, hlks, h⟩ := h
  rw [except_bind_ok] at h; obtain ⟨jts, hjts, h⟩ := h
  rw [except_bind_ok] at h; obtain ⟨pls, hpls, h⟩ := h
  rw [except_bind_ok] at h; obtain ⟨grs, hgrs, h⟩ := h
  rw [except_pure_ok] at h; subst h
  exact ⟨rfl, rfl, hst, hsc, haad, hew, hinc, hnms, hfrs, rfl, hlks, hjts,
    hpls, hgrs⟩

theorem decodeInclude_ok_fields {a : List (String × String)} {cs : List Xml}
    {i : Include} (h : decodeInclude a cs = .ok i) :
    reqChildStr "uri" cs = .ok i.uri ∧
    i.name = childStr "name" cs ∧
    childBool "static" cs = .ok i.static ∧
    i.placement_frame = childStr "placement_frame" cs ∧
    i.pose = childStr "pose" cs ∧
    mapExcept (fun e => decodePlugin e.1 e.2) (elemsNamed "plugin" cs) = .ok i.plugin := by
  unfold decodeInclude at h
  rw [except_bind_ok] at h; obtain ⟨u, hu, h⟩ := h
  rw [except_bind_ok] at h; obtain ⟨st, hst, h⟩ := h
  rw [except_bind_ok] at h; obtain ⟨pls, hpls, h⟩ := h
  rw [except_pure_ok] at h; subst h
  exact ⟨hu, rfl, hst, rfl, rfl, hpls⟩

theorem decodeGraspCheck_ok_fields {a : List (String × String)} {cs : List Xml}
    {g : GraspCheck} (h : decodeGraspCheck a cs = .ok g) :
    childI64 "detach_step" cs = .ok g.detach_step ∧
    childI64 "attach_step" cs = .ok g.attach_step ∧
    childU64 "min_contact_count" cs = .ok g.min_contact_count := by
  unfold decodeGraspCheck at h
  rw [except_bind_ok] at h; obtain ⟨d1, hd1, h⟩ := h
  rw [except_bind_ok] at h; obtain ⟨d2, hd2, h⟩ := h
  rw [except_bind_ok] at h; obtain ⟨d3, hd3, h⟩ := h
  rw [except_pure_ok] at h; subst h
  exact ⟨hd1, hd2, hd3⟩

theorem mem_elemsNamed {n : String} {cs : List Xml}
    {e : List (String × String) × List Xml} (he : e ∈ elemsNamed n cs) :
    Xml.elem n e.1 e.2 ∈ cs := by
  unfold elemsNamed at he
  rw [List.mem_filterMap] at he
  obtain ⟨c, hc, hfc⟩ := he
  cases c with
  | text s => simp at hfc
  | elem m a k =>
    by_cases h : m = n
    · subst h
      simp at hfc
      subst hfc
      exact hc
    · simp [h] at hfc

theorem recognized_mem_of_model {cs : List Xml} {a : List (String × String)}
    {k : List Xml} (h : Xml.elem "model" a k ∈ cs) :
    ("model", a, k) ∈ recognizedRootChildren cs := by
  unfold recognizedRootChildren
  rw [List.mem_filterMap]
  exact ⟨_, h, rfl⟩

theorem recognized_mem_of_world {cs : List Xml} {a : List (String × String)}
    {k : List Xml} (h : Xml.elem "world" a k ∈ cs) :
    ("world", a, k) ∈ recognizedRootChildren cs := by
  unfold recognizedRootChildren
  rw [List.mem_filterMap]
  exact ⟨_, h, rfl⟩

theorem parseInt_eq_of_data_nil {s : String} (hd : s.data = []) :
    parseInt s = none := by
  unfold parseInt
  rw [hd]

theorem parseInt_eq_of_data_cons {s : String} {c : Char} {cs : List Char}
    (hd : s.data = c :: cs) :
    parseInt s =
      if c = '-' then
        if cs = [] then none
        else (parseNatCore cs 0).map fun n => -Int.ofNat n
      else (parseNatCore (c :: cs) 0).map Int.ofNat := by
  unfold parseInt
  rw [hd]

theorem parseNat_eq_of_data_cons {s : String} {c : Char} {cs : List Char}
    (hd : s.data = c :: cs) :
    parseNat s = parseNatCore (c :: cs) 0 := by
  unfold parseNat
  rw [hd]

theorem parseNat_eq_none_of_neg {s : String} {v : Int}
    (hp : parseInt s = some v) (hv : v < 0) : parseNat s = none := by
  cases hd : s.data with
  | nil => rw [parseInt_eq_of_data_nil hd] at hp; simp at hp
  | cons c cs =>
    rw [parseInt_eq_of_data_cons hd] at hp
    by_cases hc : c = '-'
    · rw [parseNat_eq_of_data_cons hd]
      subst hc
      simp [parseNatCore, digitVal?]
    · rw [if_neg hc] at hp
      rw [Option.map_eq_some'] at hp
      obtain ⟨nn, _, hvn⟩ := hp
      subst hvn
      simp [Int.ofNat_eq_natCast] at hv
      omega

/-! ## Claim theorems -/

/-- C1: for every Document produced by a successful decode, encoding it and
decoding the result yields a structurally equal Document (round-trip law). -/
theorem round_trip_decoded (x : Xml) (d : Sdf) (h : decode x = .ok d) :
    decode (encode d) = .ok d :=
  encode_decode d (decode_wf h)

/-- Witness for C1 at a concrete decoded document. -/
theorem round_trip_decoded_witness :
    decode (Xml.elem "sdf" [("version", "1.5")]
        [Xml.elem "model" [("name", "m")] []]) = .ok rtDoc ∧
    decode (encode rtDoc) = .ok rtDoc :=
  ⟨rfl, round_trip_decoded
    (Xml.elem "sdf" [("version", "1.5")] [Xml.elem "model" [("name", "m")] []])
    rtDoc rfl⟩

/-- C2: decoding a model with no allow_auto_disable child yields
`some true`, with no enable_wind child yields `some false`, and decoding a
root with no version attribute yields version `"1.8"`; these
defaulted-present fields are always filled. -/
theorem defaults_materialized :
    (∀ (attrs : List (String × String)) (cs : List Xml) (m : Model),
        elemsNamed "allow_auto_disable" cs = [] → decodeModel attrs cs = .ok m →
        m.allow_auto_disable = some true) ∧
    (∀ (attrs : List (String × String)) (cs : List Xml) (m : Model),
        elemsNamed "enable_wind" cs = [] → decodeModel attrs cs = .ok m →
        m.enable_wind = some false) ∧
    (∀ (attrs : List (String × String)) (cs : List Xml) (d : Sdf),
        lookupAttr "version" attrs = none →
        decode (.elem "sdf" attrs cs) = .ok d → d.version = "1.8") := by
  refine ⟨?_, ?_, ?_⟩
  · intro attrs cs m hnone h
    have hf := (decodeModel_ok_fields h).2.2.2.2.1
    rw [childBoolD_eq_none (childStr_of_elemsNamed_nil hnone)] at hf
    injection hf with hf
    exact hf.symm
  · intro attrs cs m hnone h
    have hf := (decodeModel_ok_fields h).2.2.2.2.2.1
    rw [childBoolD_eq_none (childStr_of_elemsNamed_nil hnone)] at hf
    injection hf with hf
    exact hf.symm
  · intro attrs cs d hnone h
    rw [decode_sdf_eq, except_map_ok] at h
    obtain ⟨t, _, hd⟩ := h
    subst hd
    simp [hnone]

/-- Witness for C2 at concrete inputs. -/
theorem defaults_materialized_witness :
    emptyBoxModel.allow_auto_disable = some true ∧
    emptyBoxModel.enable_wind = some false ∧
    ({ version := "1.8", sdf_type := .actor } : Sdf).version = "1.8" :=
  ⟨defaults_materialized.1 [("name", "box")] [] emptyBoxModel rfl rfl,
   defaults_materialized.2.1 [("name", "box")] [] emptyBoxModel rfl rfl,
   defaults_materialized.2.2 [] [Xml.elem "actor" [] []] _ rfl rfl⟩

/-- C3: a root with both a model and a world child fails with a
schema-mismatch error; a root with no recognized child likewise; a
successful decode carries exactly one variant of the tagged union. -/
theorem tagged_union_exclusive :
    (∀ (attrs : List (String × String)) (cs : List Xml),
        (elemsNamed "model" cs).isEmpty = false →
        (elemsNamed "world" cs).isEmpty = false →
        decode (.elem "sdf" attrs cs) = .error (.schemaMismatch "sdf_type")) ∧
    (∀ (attrs : List (String × String)) (cs : List Xml),
        recognizedRootChildren cs = [] →
        decode (.elem "sdf" attrs cs) = .error (.schemaMismatch "sdf_type")) ∧
    (∀ (x : Xml) (d : Sdf), decode x = .ok d →
        (∃ w, d.sdf_type = .world w) ∨ (∃ m, d.sdf_type = .model m) ∨
        d.sdf_type = .actor ∨ d.sdf_type = .light) := by
  refine ⟨?_, ?_, ?_⟩
  · intro attrs cs hm hw
    obtain ⟨em, hem⟩ : ∃ e, e ∈ elemsNamed "model" cs := by
      cases h : elemsNamed "model" cs with
      | nil => rw [h] at hm; simp at hm
      | cons e t => exact ⟨e, by simp [h]⟩
    obtain ⟨ew, hewm⟩ : ∃ e, e ∈ elemsNamed "world" cs := by
      cases h : elemsNamed "world" cs with
      | nil => rw [h] at hw; simp at hw
      | cons e t => exact ⟨e, by simp [h]⟩
    have h1 := recognized_mem_of_model (mem_elemsNamed hem)
    have h2 := recognized_mem_of_world (mem_elemsNamed hewm)
    rw [decode_sdf_eq]
    cases hr : recognizedRootChildren cs with
    | nil => rw [hr] at h1; simp at h1
    | cons e rest =>
      cases rest with
      | nil =>
        rw [hr, List.mem_singleton] at h1 h2
        rw [← h2] at h1
        simp at h1
      | cons e2 rest2 =>
        rw [decodeSdfType_multi hr]
        rfl
  · intro attrs cs hr
    rw [decode_sdf_eq, decodeSdfType_nil hr]
    rfl
  · intro x d _
    cases ht : d.sdf_type with
    | world w => exact Or.inl ⟨w, rfl⟩
    | model m => exact Or.inr (Or.inl ⟨m, rfl⟩)
    | actor => exact Or.inr (Or.inr (Or.inl rfl))
    | light => exact Or.inr (Or.inr (Or.inr rfl))

/-- Witness for C3 at concrete inputs. -/
theorem tagged_union_exclusive_witness :
    decode (Xml.elem "sdf" []
        [Xml.elem "model" [("name", "m")] [], Xml.elem "world" [] []]) =
      .error (.schemaMismatch "sdf_type") ∧
    decode (Xml.elem "sdf" [] [Xml.text "hello"]) =
      .error (.schemaMismatch "sdf_type") ∧
    ((∃ w, ({ version := "1.8", sdf_type := .actor } : Sdf).sdf_type = .world w) ∨
      (∃ m, ({ version := "1.8", sdf_type := .actor } : Sdf).sdf_type = .model m) ∨
      ({ version := "1.8", sdf_type := .actor } : Sdf).sdf_type = .actor ∨
      ({ version := "1.8", sdf_type := .actor } : Sdf).sdf_type = .light) :=
  ⟨tagged_union_exclusive.1 []
      [Xml.elem "model" [("name", "m")] [], Xml.elem "world" [] []] rfl rfl,
   tagged_union_exclusive.2.1 [] [Xml.text "hello"] rfl,
   tagged_union_exclusive.2.2 (Xml.elem "sdf" [] [Xml.elem "actor" [] []]) _ rfl⟩

/-- C4: the concrete box scenario decodes to the expected Document with
defaults materialized, the explicit fields set, and all collections empty. -/
theorem concrete_scenario_box :
    decode (Xml.elem "sdf" [("version", "1.8")]
      [Xml.elem "model" [("name", "box")]
        [Xml.elem "pose" [] [Xml.text "0 0 0.5 0 0 0"],
         Xml.elem "static" [] [Xml.text "false"],
         Xml.elem "self_collide" [] [Xml.text "true"]]]) =
    .ok boxDoc := rfl

/-- C5: absent child elements for a collection-valued field decode to the
empty collection, never an absent field, for every collection of Model and
for Include's plugins. -/
theorem collections_default_empty :
    (∀ (attrs : List (String × String)) (cs : List Xml) (m : Model),
        decodeModel attrs cs = .ok m →
        (elemsNamed "include" cs = [] → m.«include» = []) ∧
        (elemsNamed "model" cs = [] → m.model = []) ∧
        (elemsNamed "frame" cs = [] → m.frame = []) ∧
        (elemsNamed "link" cs = [] → m.link = []) ∧
        (elemsNamed "joint" cs = [] → m.joint = []) ∧
        (elemsNamed "plugin" cs = [] → m.plugin = []) ∧
        (elemsNamed "gripper" cs = [] → m.gripper = [])) ∧
    (∀ (attrs : List (String × String)) (cs : List Xml) (i : Include),
        decodeInclude attrs cs = .ok i →
        elemsNamed "plugin" cs = [] → i.plugin = []) := by
  refine ⟨?_, ?_⟩
  · intro attrs cs m h
    obtain ⟨_, _, _, _, _, _, hinc, hnms, hfrs, _, hlks, hjts, hpls, hgrs⟩ :=
      decodeModel_ok_fields h
    refine ⟨?_, ?_, ?_, ?_, ?_, ?_, ?_⟩
    · intro hn; rw [hn, mapExcept_nil] at hinc; injection hinc with hi; exact hi.symm
    · intro hn; rw [hn, mapExcept_nil] at hnms; injection hnms with hi; exact hi.symm
    · intro hn; rw [hn, mapExcept_nil] at hfrs; injection hfrs with hi; exact hi.symm
    · intro hn; rw [hn, mapExcept_nil] at hlks; injection hlks with hi; exact hi.symm
    · intro hn; rw [hn, mapExcept_nil] at hjts; injection hjts with hi; exact hi.symm
    · intro hn; rw [hn, mapExcept_nil] at hpls; injection hpls with hi; exact hi.symm
    · intro hn; rw [hn, mapExcept_nil] at hgrs; injection hgrs with hi; exact hi.symm
  · intro attrs cs i h hn
    have hp := (decodeInclude_ok_fields h).2.2.2.2.2
    rw [hn, mapExcept_nil] at hp
    injection hp with hi
    exact hi.symm

/-- Witness for C5 at concrete inputs. -/
theorem collections_default_empty_witness :
    emptyBoxModel.link = [] ∧ uriOnlyInclude.plugin = [] :=
  ⟨((collections_default_empty.1 [("name", "box")] [] emptyBoxModel rfl).2.2.2.1) rfl,
   collections_default_empty.2 [] [Xml.elem "uri" [] [Xml.text "u"]]
     uriOnlyInclude rfl rfl⟩

/-- C6: plugins named p1 then p2 decode to the collection [p1, p2] in
document order, and re-encoding that model emits them in the same order. -/
theorem plugin_order_preserved :
    decodeModel [("name", "m")]
      [Xml.elem "plugin" [("name", "p1"), ("filename", "f1")] [],
       Xml.elem "plugin" [("name", "p2"), ("filename", "f2")] []] =
      .ok orderModel ∧
    encodeModel orderModel =
      Xml.elem "model" [("name", "m")]
        [Xml.elem "allow_auto_disable" [] [Xml.text "true"],
         Xml.elem "enable_wind" [] [Xml.text "false"],
         Xml.elem "plugin" [("name", "p1"), ("filename", "f1")] [],
         Xml.elem "plugin" [("name", "p2"), ("filename", "f2")] []] :=
  ⟨rfl, rfl⟩

/-- C7: decode fails with a missing-field decode error whenever a required
field is absent: a model with no name attribute, a plugin missing name or
filename, an include missing uri.  Decode is a total function, so it never
panics. -/
theorem required_fields_missing :
    (∀ (attrs : List (String × String)) (cs : List Xml),
        lookupAttr "name" attrs = none →
        decodeModel attrs cs = .error (.missingField "name")) ∧
    (∀ (attrs : List (String × String)) (cs : List Xml),
        lookupAttr "name" attrs = none ∨ lookupAttr "filename" attrs = none →
        ∃ f, decodePlugin attrs cs = .error (.missingField f)) ∧
    (∀ (attrs : List (String × String)) (cs : List Xml),
        childStr "uri" cs = none →
        decodeInclude attrs cs = .error (.missingField "uri")) := by
  refine ⟨?_, ?_, ?_⟩
  · intro attrs cs h
    simp [decodeModel, reqAttr_eq_none h]
  · intro attrs cs h
    rcases h with h | h
    · exact ⟨"name", by simp [decodePlugin, reqAttr_eq_none h]⟩
    · cases hn : lookupAttr "name" attrs with
      | none => exact ⟨"name", by simp [decodePlugin, reqAttr_eq_none hn]⟩
      | some u =>
        exact ⟨"filename",
          by simp [decodePlugin, reqAttr_eq_some hn, reqAttr_eq_none h]⟩
  · intro attrs cs h
    simp [decodeInclude, reqChildStr_eq_none h]

/-- Witness for C7 at concrete inputs. -/
theorem required_fields_missing_witness :
    decodeModel [] [] = .error (.missingField "name") ∧
    (∃ f, decodePlugin [("name", "p")] [] = .error (.missingField f)) ∧
    decodeInclude [] [] = .error (.missingField "uri") :=
  ⟨required_fields_missing.1 [] [] rfl,
   required_fields_missing.2.1 [("name", "p")] [] (Or.inr rfl),
   required_fields_missing.2.2 [] [] rfl⟩

/-- C8: encoding an in-memory Document always succeeds: the fallible encode
entrypoint returns the encoded tree for every Document. -/
theorem encode_never_fails (d : Sdf) : encodeResult d = .ok (encode d) := rfl

/-- C9: decode and encode are deterministic pure functions: identical inputs
yield identical results, structurally equal Documents encode identically. -/
theorem codec_deterministic :
    (∀ x₁ x₂ : Xml, x₁ = x₂ → decode x₁ = decode x₂) ∧
    (∀ d₁ d₂ : Sdf, d₁ = d₂ →
        encode d₁ = encode d₂ ∧ encodeResult d₁ = encodeResult d₂) :=
  ⟨fun _ _ h => h ▸ rfl, fun _ _ h => ⟨h ▸ rfl, h ▸ rfl⟩⟩

/-- Witness for C9 at concrete inputs. -/
theorem codec_deterministic_witness :
    decode (Xml.elem "sdf" [] []) = decode (Xml.elem "sdf" [] []) ∧
    encode { version := "1.8", sdf_type := .actor } =
        encode { version := "1.8", sdf_type := .actor } ∧
    encodeResult { version := "1.8", sdf_type := .actor } =
        encodeResult { version := "1.8", sdf_type := .actor } :=
  ⟨codec_deterministic.1 _ _ rfl,
   (codec_deterministic.2 _ _ rfl).1, (codec_deterministic.2 _ _ rfl).2⟩

/-- C10: min_contact_count is u64 while detach_step/attach_step are i64:
negative integer text fails for min_contact_count but decodes for
detach_step/attach_step, and absent children decode to none (the documented
defaults 40/20/2 are not materialized). -/
theorem grasp_check_numeric_types :
    (∀ (s : String) (v : Int), parseInt s = some v → v < 0 →
        decodeGraspCheck [] [Xml.elem "min_contact_count" [] [Xml.text s]] =
          .error (.typeMismatch "min_contact_count")) ∧
    (∀ (s : String) (v : Int), parseInt s = some v → v < 0 → -(2 ^ 63) ≤ v →
        decodeGraspCheck [] [Xml.elem "detach_step" [] [Xml.text s]] =
          .ok { detach_step := some v, attach_step := none,
                min_contact_count := none }) ∧
    (∀ (s : String) (v : Int), parseInt s = some v → v < 0 → -(2 ^ 63) ≤ v →
        decodeGraspCheck [] [Xml.elem "attach_step" [] [Xml.text s]] =
          .ok { detach_step := none, attach_step := some v,
                min_contact_count := none }) ∧
    (∀ (a : List (String × String)) (cs : List Xml) (g : GraspCheck),
        decodeGraspCheck a cs = .ok g →
        (elemsNamed "detach_step" cs = [] → g.detach_step = none) ∧
        (elemsNamed "attach_step" cs = [] → g.attach_step = none) ∧
        (elemsNamed "min_contact_count" cs = [] → g.min_contact_count = none)) := by
  refine ⟨?_, ?_, ?_, ?_⟩
  · intro s v hp hv
    have hpn := parseNat_eq_none_of_neg hp hv
    simp [decodeGraspCheck, childI64, childU64, childStr, decodeU64Text, hpn]
  · intro s v hp hv hr
    have hc1 : -(9223372036854775808 : Int) ≤ v := by omega
    have hc2 : v < (9223372036854775808 : Int) := by omega
    simp [decodeGraspCheck, childI64, childU64, childStr, decodeI64Text, hp,
      hc1, hc2]
  · intro s v hp hv hr
    have hc1 : -(9223372036854775808 : Int) ≤ v := by omega
    have hc2 : v < (9223372036854775808 : Int) := by omega
    simp [decodeGraspCheck, childI64, childU64, childStr, decodeI64Text, hp,
      hc1, hc2]
  · intro a cs g h
    obtain ⟨h1, h2, h3⟩ := decodeGraspCheck_ok_fields h
    refine ⟨?_, ?_, ?_⟩
    · intro hn
      rw [childI64_eq_none (childStr_of_elemsNamed_nil hn)] at h1
      injection h1 with h1
      exact h1.symm
    · intro hn
      rw [childI64_eq_none (childStr_of_elemsNamed_nil hn)] at h2
      injection h2 with h2
      exact h2.symm
    · intro hn
      rw [childU64_eq_none (childStr_of_elemsNamed_nil hn)] at h3
      injection h3 with h3
      exact h3.symm

/-- Witness for C10 at concrete inputs. -/
theorem grasp_check_numeric_types_witness :
    decodeGraspCheck [] [Xml.elem "min_contact_count" [] [Xml.text "-5"]] =
      .error (.typeMismatch "min_contact_count") ∧
    decodeGraspCheck [] [Xml.elem "detach_step" [] [Xml.text "-5"]] =
      .ok { detach_step := some (-5), attach_step := none,
            min_contact_count := none } ∧
    decodeGraspCheck [] [Xml.elem "attach_step" [] [Xml.text "-5"]] =
      .ok { detach_step := none, attach_step := some (-5),
            min_contact_count := none } ∧
    ({ detach_step := none, attach_step := none,
       min_contact_count := none } : GraspCheck).detach_step = none :=
  ⟨grasp_check_numeric_types.1 "-5" (-5) rfl (by decide),
   grasp_check_numeric_types.2.1 "-5" (-5) rfl (by decide) (by decide),
   grasp_check_numeric_types.2.2.1 "-5" (-5) rfl (by decide) (by decide),
   (grasp_check_numeric_types.2.2.2 [] [] _ rfl).1 rfl⟩
